import Mathlib

/-!
Shallow embedding of the differential HTTP vulnerability-probing core of
`bug_bounty_tool.py` (manual XSS / SQLi / CORS testing, URL corpus
construction), together with proofs settling the frozen claims about it.

Strings are modelled as `List Char` (Python `str`), elapsed times as `ℚ`
(Python `float` durations; the code only adds, subtracts and compares them),
and the network as explicit transport oracles `List Char → Option HttpResp`
where `none` models a raised `requests` exception (connection refused,
timeout, DNS failure), which the source catches with a bare `except`.
-/

namespace BugBounty

abbrev Chars := List Char

/-- Python `needle in haystack` helper: does `hay` start with `needle`? -/
def leadsWith : Chars → Chars → Bool
  | [], _ => true
  | _ :: _, [] => false
  | a :: as, b :: bs => a == b && leadsWith as bs

/-- Python substring test `needle in hay` for `str`. -/
def containsSub (needle : Chars) : Chars → Bool
  | [] => leadsWith needle []
  | b :: bs => leadsWith needle (b :: bs) || containsSub needle bs

/-- Python `str.lower()` (exact on the ASCII text the tool compares). -/
def lowerStr (s : Chars) : Chars := s.map Char.toLower

/-- Python `s.replace(c, r)` for a single-character pattern `c`. -/
def pyReplaceChar (c : Char) (r : Chars) : Chars → Chars
  | [] => []
  | a :: as => (if a = c then r else [a]) ++ pyReplaceChar c r as

/-- `payload.replace('<', '&lt;').replace('>', '&gt;')` from
`test_xss_payload` (line 1348): the HTML-escaped form the classifier
looks for. -/
def escapeLtGt (p : Chars) : Chars :=
  pyReplaceChar '>' ('&' :: 'g' :: 't' :: ';' :: []) (pyReplaceChar '<' ('&' :: 'l' :: 't' :: ';' :: []) p)

/-- Uppercase hexadecimal digit, as produced by `urllib.parse.quote`. -/
def hexDigitU (n : Nat) : Char :=
  if n < 10 then Char.ofNat ('0'.toNat + n) else Char.ofNat ('A'.toNat + n - 10)

/-- `urllib.parse.quote` on one character (exact for ASCII input, which is
what the payload catalogs contain): alphanumerics and `_.-~/` are kept,
everything else is percent-encoded with uppercase hex. -/
def quoteChar (c : Char) : Chars :=
  if c.isAlphanum || c = '_' || c = '.' || c = '-' || c = '~' || c = '/' then [c]
  else '%' :: hexDigitU (c.toNat / 16 % 16) :: hexDigitU (c.toNat % 16) :: []

/-- `urllib.parse.quote(payload)`. -/
def pyQuote (s : Chars) : Chars := s.flatMap quoteChar

/-- `re.sub(r'=([^&]*)', '=' ++ enc, url)`: after every `=` the maximal run
of non-`&` characters is replaced by `enc`.  The `Bool` flag is true while
the scanner is inside a value run already consumed by the current match. -/
def subParamsAux (enc : Chars) : Bool → Chars → Chars
  | _, [] => []
  | true, c :: rest =>
      if c = '&' then c :: subParamsAux enc false rest
      else subParamsAux enc true rest
  | false, c :: rest =>
      if c = '=' then c :: (enc ++ subParamsAux enc true rest)
      else c :: subParamsAux enc false rest

def subParams (enc url : Chars) : Chars := subParamsAux enc false url

/-- `test_url = re.sub(r'=([^&]*)', f'={quote(payload)}', url)` — the
mutated URL actually requested for a payload probe. -/
def mutUrl (payload url : Chars) : Chars := subParams (pyQuote payload) url

/-- An HTTP response as the tool observes it: `response.text` and
`response.elapsed.total_seconds()`. -/
structure HttpResp where
  body : Chars
  elapsed : ℚ
deriving DecidableEq

/-- Python `str.split(sep)` for a one-character separator. -/
def splitOnChar (sep : Char) : Chars → List Chars
  | [] => [[]]
  | c :: rest =>
    match splitOnChar sep rest with
    | [] => if c = sep then [[], []] else [[c]]
    | p :: ps => if c = sep then [] :: p :: ps else (c :: p) :: ps

/-- Split a list at the first occurrence of `c` (Python `s.split(c, 1)`),
returning the parts before and after it, or `none` when `c` is absent. -/
def splitFirst (c : Char) : Chars → Option (Chars × Chars)
  | [] => none
  | a :: as =>
    if a = c then some ([], as)
    else (splitFirst c as).map (fun p => (a :: p.1, p.2))

/-- Characters allowed in a URL scheme by `urllib.parse`. -/
def isSchemeChar (c : Char) : Bool :=
  c.isAlphanum || c = '+' || c = '-' || c = '.'

structure UrlParts where
  scheme : Chars
  netloc : Chars
  path : Chars
  query : Chars
  fragment : Chars
deriving DecidableEq

/-- `urllib.parse.urlparse` as the tool uses it (scheme, netloc, path,
query, fragment for ordinary http(s) URLs): scheme before the first `:`
when well-formed, netloc after `//` up to `/?#`, fragment after the first
`#`, query after the first `?`. -/
def pyUrlsplit (s : Chars) : UrlParts :=
  let sch :=
    match splitFirst ':' s with
    | some (b, a) => if b ≠ [] && b.all isSchemeChar then (lowerStr b, a) else ([], s)
    | none => ([], s)
  let nl :=
    match sch.2 with
    | '/' :: '/' :: r =>
        (r.takeWhile (fun c => !(c = '/' || c = '?' || c = '#')),
         r.dropWhile (fun c => !(c = '/' || c = '?' || c = '#')))
    | r => ([], r)
  let fr :=
    match splitFirst '#' nl.2 with
    | some (b, a) => (b, a)
    | none => (nl.2, [])
  let qu :=
    match splitFirst '?' fr.1 with
    | some (b, a) => (b, a)
    | none => (fr.1, [])
  ⟨sch.1, nl.1, qu.1, qu.2, fr.2⟩

/-- `f"{parsed_url.scheme}://{parsed_url.netloc}{parsed_url.path}"`. -/
def baseUrlOf (u : UrlParts) : Chars :=
  u.scheme ++ (':' :: '/' :: '/' :: []) ++ u.netloc ++ u.path

/-- `dict(param.split('=') for param in query.split('&') if '=' in param)`:
`none` models the `ValueError` raised when a kept fragment splits into more
than two pieces (two or more `=` signs). -/
def parseQueryPairs (q : Chars) : Option (List (Chars × Chars)) :=
  ((splitOnChar '&' q).filter (fun p => p.contains '=')).mapM (fun p =>
    match splitOnChar '=' p with
    | [k, v] => some (k, v)
    | _ => none)

/-- Python `dict` insertion: a repeated key keeps its original position and
takes the new value; a fresh key is appended. -/
def dictUpsert (d : List (Chars × Chars)) (k v : Chars) : List (Chars × Chars) :=
  if d.any (fun p => p.1 = k) then d.map (fun p => if p.1 = k then (k, v) else p)
  else d ++ [(k, v)]

def buildDict (pairs : List (Chars × Chars)) : List (Chars × Chars) :=
  pairs.foldl (fun d p => dictUpsert d p.1 p.2) []

/-- `test_params = params.copy(); test_params[param] = payload`. -/
def setVal (payload k : Chars) (d : List (Chars × Chars)) : List (Chars × Chars) :=
  d.map (fun p => if p.1 = k then (p.1, payload) else p)

/-- A finding dict produced by `test_xss_payload`: the GET branch emits
`type: 'reflected_xss'` records, the POST branch `type: 'post_xss'`
records (both `risk: 'High'`). -/
inductive XssFinding where
  | reflected (url payload : Chars)
  | postXss (url parameter payload : Chars)
deriving DecidableEq

def xssType : XssFinding → Chars
  | .reflected _ _ => "reflected_xss".toList
  | .postXss _ _ _ => "post_xss".toList

def xssRisk : XssFinding → Chars
  | _ => "High".toList

/-- The transport: `requests.get` on a URL, `requests.post` on a base URL
with form data.  `none` models a raised exception. -/
structure Transport where
  get : Chars → Option HttpResp
  post : Chars → List (Chars × Chars) → Option HttpResp

/-- The `for param in params:` loop of the POST section: posts the dict
with one parameter overwritten; an exception (`none`) aborts the whole
function to its bare `except`, so no later parameter is tried and the
result is `none` either way. -/
def postLoop (post : Chars → List (Chars × Chars) → Option HttpResp)
    (base : Chars) (d : List (Chars × Chars)) (payload : Chars) :
    List Chars → Option XssFinding
  | [] => none
  | k :: ks =>
    match post base (setVal payload k d) with
    | none => none
    | some r =>
      if containsSub payload r.body then some (.postXss base k payload)
      else postLoop post base d payload ks

/-- The POST section of `test_xss_payload` (lines 1357-1376): skipped when
the parsed URL has no query; a malformed query (`ValueError` in the dict
comprehension) propagates to the bare `except` and yields `none`. -/
def postSection (tr : Transport) (url payload : Chars) : Option XssFinding :=
  let u := pyUrlsplit url
  if u.query.isEmpty then none
  else
    match parseQueryPairs u.query with
    | none => none
    | some pairs =>
      let d := buildDict pairs
      postLoop tr.post (baseUrlOf u) d payload (d.map (fun p => p.1))

/-- `test_xss_payload(url, payload)` (lines 1342-1379): the GET branch
requests the mutated URL and reports a reflected-XSS finding when the raw
payload appears in the body while its `<`/`>`-escaped form does not; a GET
exception aborts to the bare `except` (POST never runs); otherwise the
POST section runs. -/
def test_xss_payload (tr : Transport) (url payload : Chars) : Option XssFinding :=
  if url.contains '=' then
    match tr.get (mutUrl payload url) with
    | none => none
    | some r =>
      if !containsSub (escapeLtGt payload) r.body && containsSub payload r.body then
        some (.reflected (mutUrl payload url) payload)
      else postSection tr url payload
  else postSection tr url payload

/-- `manual_xss_testing`'s collection loop (lines 1387-1390): every
non-`None` future result is appended, in completion order. `units` is the
completion order of the submitted `(url, payload)` pairs. -/
def manual_xss_testing (tr : Transport) (units : List (Chars × Chars)) : List XssFinding :=
  units.filterMap (fun u => test_xss_payload tr u.1 u.2)

/-- The submission order of XSS work units (lines 1383-1385):
`urls_with_params[:50] × xss_payloads[:5]`. -/
def xssUnits (urls payloads : List Chars) : List (Chars × Chars) :=
  (urls.take 50).flatMap (fun u => (payloads.take 5).map (fun p => (u, p)))

/-- A finding dict produced by `test_sqli_payload`: either
`type: 'error_based_sqli'` with its `evidence` string, or
`type: 'time_based_sqli'` with its `time_difference` (both `risk: 'High'`). -/
inductive SqliFinding where
  | errorBased (url payload evidence : Chars)
  | timeBased (url payload : Chars) (diff : ℚ)
deriving DecidableEq

def sqliType : SqliFinding → Chars
  | .errorBased _ _ _ => "error_based_sqli".toList
  | .timeBased _ _ _ => "time_based_sqli".toList

def sqliRisk : SqliFinding → Chars
  | _ => "High".toList

/-- `sql_errors = ['sql syntax', 'mysql', 'ora-', 'postgresql', 'sqlite', 'sybase']`. -/
def sql_errors : List Chars :=
  ["sql syntax".toList, "mysql".toList, "ora-".toList,
   "postgresql".toList, "sqlite".toList, "sybase".toList]

/-- The `for error in sql_errors:` loop (lines 1434-1442): the first listed
signature present in the lowercased mutated body but not in the lowercased
baseline body, if any. -/
def findSqlError (testBody origBody : Chars) : Option Chars :=
  sql_errors.find? (fun e =>
    containsSub e (lowerStr testBody) && !containsSub e (lowerStr origBody))

/-- `test_sqli_payload(url, payload)` (lines 1420-1456): fetches the
unmutated URL (per-call baseline), then the mutated URL; reports an
error-based finding for a fresh SQL-error signature, else a time-based
finding when the mutated elapsed time exceeds the baseline's by more than
5 seconds; any exception yields `none`. -/
def test_sqli_payload (get : Chars → Option HttpResp) (url payload : Chars) :
    Option SqliFinding :=
  match get url with
  | none => none
  | some orig =>
    match get (mutUrl payload url) with
    | none => none
    | some test =>
      match findSqlError test.body orig.body with
      | some e => some (.errorBased (mutUrl payload url) payload e)
      | none =>
        if test.elapsed > orig.elapsed + 5 then
          some (.timeBased (mutUrl payload url) payload (test.elapsed - orig.elapsed))
        else none

/-- `manual_sqli_testing`'s collection loop (lines 1464-1467): appends every
non-`None` result in completion order. -/
def manual_sqli_testing (get : Chars → Option HttpResp)
    (units : List (Chars × Chars)) : List SqliFinding :=
  units.filterMap (fun u => test_sqli_payload get u.1 u.2)

/-- The submission order of SQLi work units (lines 1460-1462):
`urls_with_params[:20] × sqli_payloads[:4]`. -/
def sqliUnits (urls payloads : List Chars) : List (Chars × Chars) :=
  (urls.take 20).flatMap (fun u => (payloads.take 4).map (fun p => (u, p)))

/-- The sequence of URLs `test_sqli_payload` actually requests for one
`(url, payload)` unit: first `requests.get(url)` (the baseline), and — only
when that does not raise — `requests.get(test_url)` (the mutated probe). -/
def sqliUnitTrace (get : Chars → Option HttpResp) (url payload : Chars) : List Chars :=
  match get url with
  | none => [url]
  | some _ => [url, mutUrl payload url]

/-- All URLs requested by `manual_sqli_testing` over a set of units. -/
def sqliScanTrace (get : Chars → Option HttpResp)
    (units : List (Chars × Chars)) : List Chars :=
  units.flatMap (fun u => sqliUnitTrace get u.1 u.2)

/-- How many times a given URL is requested unmutated (a baseline fetch)
during a SQLi scan. -/
def baselineFetchCount (get : Chars → Option HttpResp)
    (units : List (Chars × Chars)) (url : Chars) : Nat :=
  (sqliScanTrace get units).count url

/-- A CORS response as `manual_cors_testing` reads it:
`headers.get('Access-Control-Allow-Origin', '')` and
`headers.get('Access-Control-Allow-Credentials', '')`. -/
structure CorsResp where
  acao : Chars
  acac : Chars
deriving DecidableEq

/-- The issue dict appended by `manual_cors_testing`. -/
structure CorsIssue where
  url : Chars
  origin : Chars
  acao : Chars
  acac : Chars
  risk : Chars
deriving DecidableEq

/-- One `(url, origin)` iteration of `manual_cors_testing` (lines
1564-1581): given the response (or `none` for a raised exception, which
`except: continue` skips), append an issue iff the allow-origin header
equals the sent origin or is `*`; risk is High exactly when
allow-credentials is the string `true`, else Medium. -/
def corsUnit (url origin : Chars) (resp : Option CorsResp) : Option CorsIssue :=
  match resp with
  | none => none
  | some r =>
    if r.acao = origin || r.acao = "*".toList then
      some ⟨url, origin, r.acao, r.acac,
            if r.acac = "true".toList then "High".toList else "Medium".toList⟩
    else none

/-- `test_origins = ['https://evil.com', 'null', 'https://attacker.com']`. -/
def test_origins : List Chars :=
  ["https://evil.com".toList, "null".toList, "https://attacker.com".toList]

/-- `manual_cors_testing` (lines 1558-1581) over the first ten live
subdomains and the three test origins. -/
def manual_cors_testing (tr : Chars → Chars → Option CorsResp)
    (live : List Chars) : List CorsIssue :=
  (live.take 10).flatMap (fun u =>
    test_origins.filterMap (fun o => corsUnit u o (tr u o)))

/-- `self.results['urls'] = list(all_urls)`: the collected URL corpus is a
Python *set* of raw URL strings, i.e. the input sequence deduplicated by
exact string equality only. -/
def collected_urls (raw : List Chars) : List Chars := raw.dedup

/-- `urls_with_params = [url for url in self.results['urls'] if '=' in url]`
(line 1340/1418): the injection-point corpus the manual testers iterate. -/
def urls_with_params (urls : List Chars) : List Chars :=
  urls.filter (fun u => u.contains '=')

/-- The candidate injection-point corpus built from a raw URL sequence. -/
def corpus (raw : List Chars) : List Chars :=
  urls_with_params (collected_urls raw)

/-- Modelled from the spec: the spec's InjectionPoint identity
`(normalized-url-path, parameter, method)` for a corpus entry (the manual
testers issue only GET probes, so the method component is constant); the
parameter names are those of the URL's query string.  The code itself has
no such notion — this definition exists to compare the code's corpus
against the claimed identity. -/
def specPointKey (u : Chars) : Chars × List Chars :=
  ((pyUrlsplit u).path,
   ((splitOnChar '&' (pyUrlsplit u).query).filter (fun p => p.contains '=')).map
     (fun p => ((splitOnChar '=' p).headD [])))

/-- Modelled from the spec: the claim's CORS emission condition — the
allow-origin header echoes the attacker-chosen Origin, or is `*` combined
with allow-credentials = true. -/
def corsClaimCondition (origin : Chars) (r : CorsResp) : Bool :=
  r.acao = origin || (r.acao = "*".toList && r.acac = "true".toList)

/-- The dedup key named by the claim about aggregation:
`(url, parameter, category)` of an emitted XSS finding (GET reflected
findings carry no parameter field). -/
def xssDedupKey : XssFinding → Chars × Option Chars × Chars
  | .reflected u _ => (u, none, "reflected_xss".toList)
  | .postXss u k _ => (u, some k, "post_xss".toList)

/-- Does an optional XSS result carry a `type: 'reflected_xss'` finding
(the GET reflection classifier's output)? -/
def isReflectedFinding : Option XssFinding → Bool
  | some (.reflected _ _) => true
  | _ => false

/-- Does an optional SQLi result carry a `type: 'error_based_sqli'` finding
(the error-signature classifier's output)? -/
def isErrorFinding : Option SqliFinding → Bool
  | some (.errorBased _ _ _) => true
  | _ => false

/- Concrete URLs, payloads and transports used to instantiate the theorems
below on explicit inputs. -/

def urlA : Chars := "http://a/p?x=1".toList

def urlB : Chars := "http://a/p?x=2".toList

def urlC : Chars := "http://b/q?y=1".toList

/-- A `<s>` probe payload (contains angle brackets, so its escaped form
differs from it). -/
def pScr : Chars := "<s>".toList

/-- A probe payload with neither `<` nor `>`. -/
def pZZ : Chars := "ZZ".toList

/-- A transport that answers every GET instantly with an empty page. -/
def getConst : Chars → Option HttpResp := fun _ => some ⟨[], 0⟩

/-- A transport reflecting the raw `<s>` payload on the mutated URL shared
by `urlA` and `urlB`. -/
def trReflect : Transport where
  get := fun u => if u = "http://a/p?x=%3Cs%3E".toList then some ⟨"<s>".toList, 0⟩ else none
  post := fun _ _ => none

/-- Timing scenario of the claim: baseline 0.2s, mutated 5.4s. -/
def getTiming54 : Chars → Option HttpResp := fun u =>
  if u = urlA then some ⟨[], 1/5⟩
  else if u = "http://a/p?x=ZZ".toList then some ⟨[], 27/5⟩ else none

/-- Timing scenario of the claim: baseline 0.2s, mutated 0.9s. -/
def getTiming09 : Chars → Option HttpResp := fun u =>
  if u = urlA then some ⟨[], 1/5⟩
  else if u = "http://a/p?x=ZZ".toList then some ⟨[], 9/10⟩ else none

/-- Error-signature scenario: clean baseline, erroring mutated page. -/
def getSqlErr : Chars → Option HttpResp := fun u =>
  if u = urlA then some ⟨"hello".toList, 0⟩
  else if u = "http://a/p?x=ZZ".toList then
    some ⟨"You have an error in your SQL syntax".toList, 0⟩
  else none

/-- Error-signature scenario with a consistently-erroring baseline. -/
def getSqlErrBoth : Chars → Option HttpResp := fun u =>
  if u = urlA then some ⟨"You have an error in your SQL syntax".toList, 0⟩
  else if u = "http://a/p?x=ZZ".toList then
    some ⟨"You have an error in your SQL syntax".toList, 0⟩
  else none

/-- A transport that refuses every connection. -/
def trRefuse : Transport where
  get := fun _ => none
  post := fun _ _ => none

/-- An errorless transport on which the probe of `(urlA, pZZ)` simply finds
nothing: the mutated GET returns a clean page and the POST probe of its one
parameter does too. -/
def trQuiet : Transport where
  get := fun u => if u = "http://a/p?x=ZZ".toList then some ⟨"nope".toList, 0⟩ else none
  post := fun _ _ => some ⟨"nope".toList, 0⟩

/-- A transport erroring on `urlA`'s probes while reflecting `<s>` on
`urlC`'s mutated URL. -/
def trMixed : Transport where
  get := fun u => if u = "http://b/q?y=%3Cs%3E".toList then some ⟨"<s>".toList, 0⟩ else none
  post := fun _ _ => none

/-! Helper lemmas shared by the claim theorems. -/

theorem pyReplaceChar_of_not_mem (c : Char) (r : Chars) :
    ∀ l : Chars, c ∉ l → pyReplaceChar c r l = l := by
  intro l
  induction l with
  | nil => intro _; rfl
  | cons a as ih =>
    intro h
    have ha : a ≠ c := fun hac => h (hac ▸ List.mem_cons_self a as)
    have has : c ∉ as := fun hmem => h (List.mem_cons_of_mem a hmem)
    simp [pyReplaceChar, ha, ih has]

theorem escapeLtGt_of_no_angles (p : Chars) (h1 : '<' ∉ p) (h2 : '>' ∉ p) :
    escapeLtGt p = p := by
  unfold escapeLtGt
  rw [pyReplaceChar_of_not_mem _ _ p h1, pyReplaceChar_of_not_mem _ _ p h2]

theorem isReflectedFinding_postLoop (post : Chars → List (Chars × Chars) → Option HttpResp)
    (base : Chars) (d : List (Chars × Chars)) (pay : Chars) :
    ∀ ks : List Chars, isReflectedFinding (postLoop post base d pay ks) = false := by
  intro ks
  induction ks with
  | nil => rfl
  | cons k ks ih =>
    simp only [postLoop]
    cases hp : post base (setVal pay k d) with
    | none => rfl
    | some r =>
      cases hc : containsSub pay r.body
      · simp only [hc]
        simpa using ih
      · simp [hc, isReflectedFinding]

theorem isReflectedFinding_postSection (tr : Transport) (url pay : Chars) :
    isReflectedFinding (postSection tr url pay) = false := by
  unfold postSection
  dsimp only
  split
  · rfl
  · split
    · rfl
    · exact isReflectedFinding_postLoop _ _ _ _ _

theorem find?_isSome_eq_any (p : Chars → Bool) :
    ∀ l : List Chars, (l.find? p).isSome = l.any p := by
  intro l
  induction l with
  | nil => rfl
  | cons a as ih =>
    cases hp : p a
    · rw [List.find?_cons_of_neg _ (by simp [hp]), List.any_cons, hp, ih, Bool.false_or]
    · rw [List.find?_cons_of_pos _ hp, List.any_cons, hp, Bool.true_or, Option.isSome_some]

theorem count_filterMap_eq {α β : Type} [DecidableEq α] [DecidableEq β]
    (h : α → Option β) (b : β) :
    ∀ l : List α, (l.filterMap h).count b = l.countP (fun a => h a == some b) := by
  intro l
  induction l with
  | nil => rfl
  | cons a as ih =>
    rw [List.filterMap_cons, List.countP_cons]
    cases hh : h a with
    | none => simp [hh, ih]
    | some c =>
      rw [List.count_cons]
      by_cases hcb : c = b <;> simp [hh, ih, hcb]

/-- C3: for a probed parameterized URL whose mutated GET succeeds with
response `r`, `test_xss_payload` emits a `reflected_xss` finding iff the
raw payload occurs verbatim in `r`'s body while its HTML-escaped form does
not; that finding is the one for the mutated URL, its type is
`reflected_xss` and its risk is `High`.  In particular a body containing
only the escaped form yields no reflected finding. -/
theorem xss_reflection_classifier_iff (tr : Transport) (url payload : Chars) (r : HttpResp)
    (hq : url.contains '=' = true)
    (hr : tr.get (mutUrl payload url) = some r) :
    (test_xss_payload tr url payload = some (.reflected (mutUrl payload url) payload)
      ↔ containsSub payload r.body = true ∧ containsSub (escapeLtGt payload) r.body = false) ∧
    isReflectedFinding (test_xss_payload tr url payload) =
      (!containsSub (escapeLtGt payload) r.body && containsSub payload r.body) ∧
    xssType (.reflected (mutUrl payload url) payload) = "reflected_xss".toList ∧
    xssRisk (.reflected (mutUrl payload url) payload) = "High".toList := by
  have hbody : test_xss_payload tr url payload =
      (if !containsSub (escapeLtGt payload) r.body && containsSub payload r.body
       then some (.reflected (mutUrl payload url) payload)
       else postSection tr url payload) := by
    simp only [test_xss_payload, hq, if_true, hr]
  by_cases hcond : (!containsSub (escapeLtGt payload) r.body && containsSub payload r.body) = true
  · have hres : test_xss_payload tr url payload =
        some (.reflected (mutUrl payload url) payload) := by
      rw [hbody, if_pos hcond]
    obtain ⟨hne, hcp⟩ : ((!containsSub (escapeLtGt payload) r.body) = true)
        ∧ containsSub payload r.body = true := by simpa using hcond
    have hesc : containsSub (escapeLtGt payload) r.body = false := by
      cases h : containsSub (escapeLtGt payload) r.body
      · rfl
      · rw [h] at hne
        simp at hne
    refine ⟨⟨fun _ => ⟨hcp, hesc⟩, fun _ => hres⟩, ?_, rfl, rfl⟩
    rw [hres, hcond]
    rfl
  · have hcondf : (!containsSub (escapeLtGt payload) r.body && containsSub payload r.body) = false :=
      Bool.eq_false_iff.mpr hcond
    have hres : test_xss_payload tr url payload = postSection tr url payload := by
      rw [hbody, if_neg hcond]
    refine ⟨⟨?_, ?_⟩, ?_, rfl, rfl⟩
    · intro habs
      rw [hres] at habs
      have hrf := isReflectedFinding_postSection tr url payload
      rw [habs] at hrf
      simp [isReflectedFinding] at hrf
    · rintro ⟨hcp, hesc⟩
      exact absurd (by rw [hcp, hesc]; rfl) hcond
    · rw [hres, hcondf]
      exact isReflectedFinding_postSection tr url payload

/-- Witness for C3: on `urlA` with payload `<s>`, against a transport whose
mutated page reflects `<s>` unescaped, the classifier fires with exactly
the reflected finding; its escaped form `&lt;s&gt;` is indeed absent. -/
theorem xss_reflection_classifier_iff_witness :
    test_xss_payload trReflect urlA pScr = some (.reflected "http://a/p?x=%3Cs%3E".toList pScr) ∧
    containsSub pScr "<s>".toList = true ∧
    containsSub (escapeLtGt pScr) "<s>".toList = false :=
  ⟨(xss_reflection_classifier_iff trReflect urlA pScr ⟨"<s>".toList, 0⟩
      (by decide) rfl).1.mpr (by decide), by decide, by decide⟩

/-- C10: a payload containing neither `<` nor `>` escapes to itself, so the
GET reflection check — raw form present while escaped form absent — is
unsatisfiable and `test_xss_payload` can never emit a `reflected_xss`
finding for it, whatever the transport answers. -/
theorem no_angle_payload_never_reflected (tr : Transport) (url payload : Chars)
    (h1 : '<' ∉ payload) (h2 : '>' ∉ payload) :
    escapeLtGt payload = payload ∧
    isReflectedFinding (test_xss_payload tr url payload) = false := by
  have hesc := escapeLtGt_of_no_angles payload h1 h2
  refine ⟨hesc, ?_⟩
  by_cases hq : url.contains '=' = true
  · simp only [test_xss_payload, hq, if_true]
    cases hg : tr.get (mutUrl payload url) with
    | none => rfl
    | some r =>
      rw [hesc]
      cases hc : containsSub payload r.body <;>
        simp [hc, isReflectedFinding_postSection]
  · simp only [test_xss_payload, Bool.not_eq_true] at hq ⊢
    rw [hq]
    simp [isReflectedFinding_postSection]

/-- Witness for C10: the angle-free payload `alert(1)` never yields a
reflected finding, here against the reflecting transport and `urlA`. -/
theorem no_angle_payload_never_reflected_witness :
    escapeLtGt "alert(1)".toList = "alert(1)".toList ∧
    isReflectedFinding (test_xss_payload trReflect urlA "alert(1)".toList) = false :=
  no_angle_payload_never_reflected trReflect urlA "alert(1)".toList (by decide) (by decide)

/-- C4: when both the baseline and the mutated request of a SQLi probe
succeed and the mutated body shows no fresh SQL-error signature (the
situation of a time-based payload), `test_sqli_payload` emits the
time-based finding — for the mutated URL, with the elapsed difference as
evidence — iff the mutated elapsed time exceeds the baseline elapsed time
by strictly more than the 5-second threshold, and emits nothing at all
otherwise. -/
theorem sqli_timing_classifier_iff (get : Chars → Option HttpResp) (url payload : Chars)
    (orig test : HttpResp)
    (horig : get url = some orig)
    (htest : get (mutUrl payload url) = some test)
    (herr : findSqlError test.body orig.body = none) :
    (test_sqli_payload get url payload =
        some (.timeBased (mutUrl payload url) payload (test.elapsed - orig.elapsed))
      ↔ test.elapsed - orig.elapsed > 5) ∧
    (¬ test.elapsed - orig.elapsed > 5 → test_sqli_payload get url payload = none) := by
  have hbody : test_sqli_payload get url payload =
      (if test.elapsed > orig.elapsed + 5
       then some (.timeBased (mutUrl payload url) payload (test.elapsed - orig.elapsed))
       else none) := by
    simp only [test_sqli_payload, horig, htest]
    rw [herr]
  by_cases hgt : test.elapsed > orig.elapsed + 5
  · rw [hbody, if_pos hgt]
    exact ⟨⟨fun _ => by linarith, fun _ => rfl⟩, fun hc => absurd (by linarith) hc⟩
  · rw [hbody, if_neg hgt]
    constructor
    · constructor
      · intro h
        cases h
      · intro hd
        exact absurd (by linarith) hgt
    · intro _
      rfl

/-- Witness for C4, at the claim's own numbers: baseline 0.2s with mutated
5.4s yields the time-based finding; baseline 0.2s with mutated 0.9s yields
none. -/
theorem sqli_timing_classifier_iff_witness :
    test_sqli_payload getTiming54 urlA pZZ =
      some (.timeBased "http://a/p?x=ZZ".toList pZZ (27/5 - 1/5)) ∧
    test_sqli_payload getTiming09 urlA pZZ = none :=
  ⟨(sqli_timing_classifier_iff getTiming54 urlA pZZ ⟨[], 1/5⟩ ⟨[], 27/5⟩
      rfl rfl rfl).1.mpr (by norm_num),
   (sqli_timing_classifier_iff getTiming09 urlA pZZ ⟨[], 1/5⟩ ⟨[], 9/10⟩
      rfl rfl rfl).2 (by norm_num)⟩

/-- C5: when both requests of a SQLi probe succeed, `test_sqli_payload`
emits an `error_based_sqli` finding iff some signature of `sql_errors` is a
substring of the lowercased mutated body but not of the lowercased baseline
body — so a baseline that already shows the signature suppresses the
finding — and any emitted SQLi finding carries risk `High`. -/
theorem sqli_error_classifier_iff (get : Chars → Option HttpResp) (url payload : Chars)
    (orig test : HttpResp)
    (horig : get url = some orig)
    (htest : get (mutUrl payload url) = some test) :
    isErrorFinding (test_sqli_payload get url payload) =
      sql_errors.any (fun e =>
        containsSub e (lowerStr test.body) && !containsSub e (lowerStr orig.body)) ∧
    ∀ f, test_sqli_payload get url payload = some f → sqliRisk f = "High".toList := by
  have hbody : test_sqli_payload get url payload =
      (match findSqlError test.body orig.body with
       | some e => some (.errorBased (mutUrl payload url) payload e)
       | none =>
         if test.elapsed > orig.elapsed + 5
         then some (.timeBased (mutUrl payload url) payload (test.elapsed - orig.elapsed))
         else none) := by
    simp only [test_sqli_payload, horig, htest]
  constructor
  · rw [hbody, ← find?_isSome_eq_any _ sql_errors]
    unfold findSqlError
    cases hf : sql_errors.find? (fun e =>
        containsSub e (lowerStr test.body) && !containsSub e (lowerStr orig.body)) with
    | some e => rfl
    | none =>
      by_cases hgt : test.elapsed > orig.elapsed + 5
      · rw [if_pos hgt]
        rfl
      · rw [if_neg hgt]
        rfl
  · intro f _
    cases f <;> rfl

/-- Witness for C5: the mutated body `You have an error in your SQL syntax`
against the clean baseline `hello` triggers the error-based finding (risk
High); the same body against a baseline that already shows the error does
not. -/
theorem sqli_error_classifier_iff_witness :
    isErrorFinding (test_sqli_payload getSqlErr urlA pZZ) = true ∧
    sqliRisk (.errorBased "http://a/p?x=ZZ".toList pZZ "sql syntax".toList) = "High".toList ∧
    isErrorFinding (test_sqli_payload getSqlErrBoth urlA pZZ) = false :=
  ⟨((sqli_error_classifier_iff getSqlErr urlA pZZ
        ⟨"hello".toList, 0⟩ ⟨"You have an error in your SQL syntax".toList, 0⟩
        rfl rfl).1).trans (by decide),
   (sqli_error_classifier_iff getSqlErr urlA pZZ
        ⟨"hello".toList, 0⟩ ⟨"You have an error in your SQL syntax".toList, 0⟩
        rfl rfl).2 (.errorBased "http://a/p?x=ZZ".toList pZZ "sql syntax".toList) rfl,
   ((sqli_error_classifier_iff getSqlErrBoth urlA pZZ
        ⟨"You have an error in your SQL syntax".toList, 0⟩
        ⟨"You have an error in your SQL syntax".toList, 0⟩
        rfl rfl).1).trans (by decide)⟩

/-- C1 counterexample: with an always-succeeding transport and two payloads
probed against the single point `urlA`, the SQLi tester requests the
unmutated `urlA` twice — once per payload — not exactly once as the claim
states (the XSS tester, for its part, never requests an unmutated
baseline at all). -/
theorem baseline_fetched_once_counterexample :
    baselineFetchCount getConst
        [(urlA, "A".toList), (urlA, "B".toList)] urlA = 2 ∧
    (2 : ℕ) ≠ 1 := by decide

theorem baseline_count_aux (get : Chars → Option HttpResp) (url : Chars) (r : HttpResp)
    (hget : get url = some r) :
    ∀ ps : List Chars, (∀ p ∈ ps, mutUrl p url ≠ url) →
      baselineFetchCount get (ps.map (fun p => (url, p))) url = ps.length := by
  intro ps
  induction ps with
  | nil => intro _; rfl
  | cons p ps ih =>
    intro h
    have hne : url ≠ mutUrl p url := (h p (List.mem_cons_self p ps)).symm
    have ihh := ih (fun q hq => h q (List.mem_cons_of_mem p hq))
    simp only [baselineFetchCount, sqliScanTrace, List.map_cons, List.flatMap_cons] at ihh ⊢
    rw [List.count_append,
        show sqliUnitTrace get url p = [url, mutUrl p url] by simp [sqliUnitTrace, hget],
        ihh, List.length_cons]
    simp [List.count_cons, hne]
    omega

/-- C1 (amended): no baseline is cached — `test_sqli_payload` fetches a
fresh unmutated baseline inside every `(point, payload)` unit, immediately
before that unit's mutated request, so a scan probing N payloads against a
point requests its baseline N times. -/
theorem baseline_fetched_once_per_unit (get : Chars → Option HttpResp) (url : Chars)
    (r : HttpResp) (ps : List Chars)
    (hget : get url = some r)
    (hmut : ∀ p ∈ ps, mutUrl p url ≠ url) :
    baselineFetchCount get (ps.map (fun p => (url, p))) url = ps.length ∧
    ps.map (fun p => sqliUnitTrace get url p) = ps.map (fun p => [url, mutUrl p url]) := by
  refine ⟨baseline_count_aux get url r hget ps hmut, ?_⟩
  apply List.map_congr_left
  intro p _
  simp [sqliUnitTrace, hget]

/-- Witness for C1 (amended): probing the two payloads `A` and `B` against
`urlA` over the always-succeeding transport issues the baseline request for
`urlA` exactly twice, each unit's trace being baseline first, mutated URL
second. -/
theorem baseline_fetched_once_per_unit_witness :
    baselineFetchCount getConst
        (["A".toList, "B".toList].map (fun p => (urlA, p))) urlA =
      ["A".toList, "B".toList].length ∧
    ["A".toList, "B".toList].map (fun p => sqliUnitTrace getConst urlA p) =
      ["A".toList, "B".toList].map (fun p => [urlA, mutUrl p urlA]) :=
  baseline_fetched_once_per_unit getConst urlA ⟨[], 0⟩ ["A".toList, "B".toList]
    rfl (by decide)

/-- C2 counterexample: `urlA` and `urlB` differ only in the parameter
value, so the payload `<s>` mutates both to the same test URL; against a
transport reflecting that URL the scan retains BOTH findings, which agree
on the (url, parameter, category) dedup key — no deduplication (and no
risk comparison) happens at aggregation. -/
theorem dedup_highest_risk_counterexample :
    manual_xss_testing trReflect [(urlA, pScr), (urlB, pScr)] =
      [.reflected "http://a/p?x=%3Cs%3E".toList pScr,
       .reflected "http://a/p?x=%3Cs%3E".toList pScr] ∧
    ((manual_xss_testing trReflect [(urlA, pScr), (urlB, pScr)]).map xssDedupKey).Nodup
      = False := by decide

/-- C2 (amended): the collection loops perform no deduplication at all —
each scan's output contains every finding exactly as many times as units
produced it, regardless of key collisions or risk. -/
theorem aggregation_keeps_every_finding (tr : Transport) (get : Chars → Option HttpResp)
    (units : List (Chars × Chars)) (f : XssFinding) (g : SqliFinding) :
    (manual_xss_testing tr units).count f =
      units.countP (fun u => test_xss_payload tr u.1 u.2 == some f) ∧
    (manual_sqli_testing get units).count g =
      units.countP (fun u => test_sqli_payload get u.1 u.2 == some g) :=
  ⟨count_filterMap_eq _ f units, count_filterMap_eq _ g units⟩

/-- C6 counterexample: a response with `Access-Control-Allow-Origin: *` and
no allow-credentials header makes `manual_cors_testing` emit an issue
(risk Medium), although the claim's condition — echo of the Origin, or `*`
combined with credentials — is false for it. -/
theorem cors_emission_counterexample :
    (corsUnit "https://x.com".toList "https://evil.com".toList
        (some ⟨"*".toList, []⟩)).isSome = true ∧
    corsClaimCondition "https://evil.com".toList ⟨"*".toList, []⟩ = false := by decide

/-- C6 (amended): `manual_cors_testing` emits an issue iff the allow-origin
header equals the sent Origin or is `*` — whether or not credentials are
allowed — and the emitted issue's risk is High exactly when the
allow-credentials header is the string `true`, else Medium. -/
theorem cors_classifier_characterization (url origin : Chars) (r : CorsResp) :
    ((corsUnit url origin (some r)).isSome
      = (decide (r.acao = origin) || decide (r.acao = "*".toList))) ∧
    (∀ i, corsUnit url origin (some r) = some i →
      i.risk = if r.acac = "true".toList then "High".toList else "Medium".toList) ∧
    corsUnit url origin none = none := by
  refine ⟨?_, ?_, rfl⟩
  · unfold corsUnit
    dsimp only
    by_cases hb : (decide (r.acao = origin) || decide (r.acao = "*".toList)) = true
    · rw [if_pos hb, hb]
      rfl
    · rw [if_neg hb, Bool.eq_false_iff.mpr hb]
      rfl
  · intro i hi
    unfold corsUnit at hi
    dsimp only at hi
    by_cases hb : (decide (r.acao = origin) || decide (r.acao = "*".toList)) = true
    · rw [if_pos hb] at hi
      cases hi
      rfl
    · rw [if_neg hb] at hi
      cases hi

/-- Witness for C6 (amended): the `*`-without-credentials response is
emitted with risk Medium. -/
theorem cors_classifier_characterization_witness :
    (corsUnit "https://x.com".toList "https://evil.com".toList
        (some ⟨"*".toList, []⟩)).isSome = true ∧
    corsUnit "https://x.com".toList "https://evil.com".toList none = none :=
  ⟨((cors_classifier_characterization "https://x.com".toList "https://evil.com".toList
      ⟨"*".toList, []⟩).1).trans (by decide),
   (cors_classifier_characterization "https://x.com".toList "https://evil.com".toList
      ⟨"*".toList, []⟩).2.2⟩

/-- C7 counterexample: the scan output over a transport that refuses the
probe's connection is IDENTICAL to the output over an errorless transport
that merely finds nothing — the engine records no error metric of any
kind (the source's bare `except: pass` swallows the failure), so the two
runs are indistinguishable, contrary to the claim's "recorded in an
engine-level error metric". -/
theorem error_metric_counterexample :
    manual_xss_testing trRefuse [(urlA, pZZ)] = manual_xss_testing trQuiet [(urlA, pZZ)] ∧
    trRefuse.get (mutUrl pZZ urlA) = none ∧
    (trQuiet.get (mutUrl pZZ urlA)).isSome = true := by decide

/-- C7 (amended): a unit whose request errors yields no Finding and does
not abort the scan — the surrounding units still run and their results are
kept — but the error is silently swallowed, not recorded in any metric. -/
theorem errors_yield_no_finding_and_continue (tr : Transport) (get : Chars → Option HttpResp)
    (us vs : List (Chars × Chars)) (u p : Chars)
    (hq : u.contains '=' = true)
    (hget : tr.get (mutUrl p u) = none)
    (hbase : get u = none) :
    test_xss_payload tr u p = none ∧
    manual_xss_testing tr (us ++ (u, p) :: vs) =
      manual_xss_testing tr us ++ manual_xss_testing tr vs ∧
    test_sqli_payload get u p = none := by
  have hx : test_xss_payload tr u p = none := by
    simp only [test_xss_payload, hq, if_true, hget]
  refine ⟨hx, ?_, ?_⟩
  · simp [manual_xss_testing, List.filterMap_append, List.filterMap_cons, hx]
  · simp only [test_sqli_payload, hbase]

/-- Witness for C7 (amended): `trMixed` refuses `urlA`'s probes; the unit
`(urlA, <s>)` yields nothing, while the later unit `(urlC, <s>)` still runs
and its reflected finding is reported. -/
theorem errors_yield_no_finding_and_continue_witness :
    test_xss_payload trMixed urlA pScr = none ∧
    manual_xss_testing trMixed ([] ++ (urlA, pScr) :: [(urlC, pScr)]) =
      manual_xss_testing trMixed [] ++ manual_xss_testing trMixed [(urlC, pScr)] ∧
    test_sqli_payload trMixed.get urlA pScr = none :=
  errors_yield_no_finding_and_continue trMixed trMixed.get [] [(urlC, pScr)] urlA pScr
    (by decide) rfl rfl

/-- C8 counterexample: two raw URLs differing only in the parameter value
produce two distinct corpus entries, although their
(normalized-path, parameter-names, method) identity is the same — the
corpus is deduplicated by exact URL string only. -/
theorem corpus_key_dedup_counterexample :
    corpus [urlA, urlB] = [urlA, urlB] ∧
    urlA ≠ urlB ∧
    specPointKey urlA = specPointKey urlB := by decide

/-- C8 (amended): the corpus the manual testers iterate is the raw URL
sequence deduplicated by exact string equality and filtered to URLs
containing `=`; it has no duplicate URL strings, and membership is exactly
raw membership plus the parameter filter — URLs agreeing on
(path, parameter, method) but differing in values remain distinct
entries. -/
theorem corpus_string_dedup (raw : List Chars) (u : Chars) :
    (corpus raw).Nodup ∧
    (u ∈ corpus raw ↔ u ∈ raw ∧ u.contains '=' = true) := by
  constructor
  · exact (List.nodup_dedup raw).filter _
  · simp [corpus, urls_with_params, collected_urls, List.mem_filter, List.mem_dedup]

/-- Witness for C8 (amended): instantiated on the two-URL corpus of the
counterexample. -/
theorem corpus_string_dedup_witness :
    (corpus [urlA, urlB]).Nodup ∧
    (urlA ∈ corpus [urlA, urlB] ↔ urlA ∈ [urlA, urlB] ∧ urlA.contains '=' = true) :=
  corpus_string_dedup [urlA, urlB] urlA

/-- C9: with a deterministic transport, two runs of the manual XSS and SQLi
scans over the same corpus and payload catalog — each run observing its own
completion order of the work units — produce the same multiset (hence the
same set) of findings. -/
theorem probe_engine_idempotent (tr : Transport) (get : Chars → Option HttpResp)
    (urls xpays spays : List Chars)
    (r1 r2 s1 s2 : List (Chars × Chars))
    (hx1 : (xssUnits urls xpays).Perm r1) (hx2 : (xssUnits urls xpays).Perm r2)
    (hs1 : (sqliUnits urls spays).Perm s1) (hs2 : (sqliUnits urls spays).Perm s2) :
    (manual_xss_testing tr r1).Perm (manual_xss_testing tr r2) ∧
    (manual_sqli_testing get s1).Perm (manual_sqli_testing get s2) :=
  ⟨(hx1.symm.trans hx2).filterMap _, (hs1.symm.trans hs2).filterMap _⟩

/-- Witness for C9: two completion orders of the two-point corpus
`[urlA, urlC]` with payload `<s>` — one the submission order, one its
reversal — give permutation-equal finding lists on both scans. -/
theorem probe_engine_idempotent_witness :
    (manual_xss_testing trMixed [(urlA, pScr), (urlC, pScr)]).Perm
      (manual_xss_testing trMixed [(urlC, pScr), (urlA, pScr)]) ∧
    (manual_sqli_testing trMixed.get [(urlA, pScr), (urlC, pScr)]).Perm
      (manual_sqli_testing trMixed.get [(urlC, pScr), (urlA, pScr)]) :=
  probe_engine_idempotent trMixed trMixed.get [urlA, urlC] [pScr] [pScr]
    [(urlA, pScr), (urlC, pScr)] [(urlC, pScr), (urlA, pScr)]
    [(urlA, pScr), (urlC, pScr)] [(urlC, pScr), (urlA, pScr)]
    (List.Perm.refl _) (List.Perm.swap _ _ _)
    (List.Perm.refl _) (List.Perm.swap _ _ _)

end BugBounty
